import Mathlib

set_option maxRecDepth 1000000

/-!
Verification of the invoice extraction/reconciliation pipeline
(`auto_sbux_v1.0_stable.py`) against its natural-language specification.

The Python source is shallowly embedded: table cells become an inductive
`Cell` type, Python floats become exact rationals, the per-row scanning of
`process_starbucks_invoice` becomes a fold of `processRow` over rows, the
regular expressions used by the source are modelled by executable scanners
with the leftmost/greedy semantics of Python, and the pandas lookups of the
reconciliation loop become `List.find?` over the reference entries.
-/

namespace AutoSbux

/-! ## String utilities (models of Python string operations) -/

/-- Model of list prefix testing, used to implement substring search. -/
def isPrefixL : List Char → List Char → Bool
  | [], _ => true
  | _ :: _, [] => false
  | a :: as, b :: bs => a == b && isPrefixL as bs

/-- Model of the Python operator `needle in hay` on strings. -/
def listSub (needle : List Char) : List Char → Bool
  | [] => isPrefixL needle []
  | c :: rest => isPrefixL needle (c :: rest) || listSub needle rest

/-- `strContains hay needle` models the Python expression `needle in hay`. -/
def strContains (hay needle : String) : Bool :=
  listSub needle.data hay.data

/-- Model of Python `text.split(chr(10))` on character lists. -/
def splitNlAux : List Char → List (List Char)
  | [] => [[]]
  | c :: rest =>
    let r := splitNlAux rest
    if c == '\n' then [] :: r
    else
      match r with
      | h :: t => (c :: h) :: t
      | [] => [[c]]

/-- Model of Python `text.split` on the newline character. -/
def splitNl (s : String) : List String :=
  (splitNlAux s.data).map String.mk

/-- Model of Python `s.replace(dot, empty, 1)`: remove the first dot. -/
def removeFirstDot : List Char → List Char
  | [] => []
  | c :: rest => if c == '.' then rest else c :: removeFirstDot rest

/-- Model of the check `s.replace(dot, empty, 1).isdigit()` from the source. -/
def pyNumericStr (s : String) : Bool :=
  let r := removeFirstDot s.data
  !r.isEmpty && r.all Char.isDigit

/-- Digits to a natural number, most significant first. -/
def digitsToNat (l : List Char) : Nat :=
  l.foldl (fun a c => a * 10 + (c.toNat - 48)) 0

/-- Value of a digit string with at most one dot, as Python `float` parses it. -/
def parseDecQ (l : List Char) : ℚ :=
  let ip := l.takeWhile Char.isDigit
  let rest := l.drop ip.length
  let fp := rest.drop 1
  (digitsToNat ip : ℚ) + (digitsToNat fp : ℚ) / (10 : ℚ) ^ fp.length

/-- Model of Python `float(s)` for strings drawn from the class `[0-9.]`:
succeeds exactly when the string has at least one digit and at most one dot
(the only failure mode the source can hit inside its `try` blocks). -/
def pyFloat? (s : String) : Option ℚ :=
  let l := s.data
  if l.all (fun c => c.isDigit || c == '.') &&
      ((l.filter (fun c => c == '.')).length ≤ 1 : Bool) && l.any Char.isDigit then
    some (parseDecQ l)
  else none

/-- One step of the scan for the pattern digits-dot-digit-digit.
At the current position, try a maximal digit run followed by a dot and two
digits; on success emit the match and continue after it, otherwise advance one
character.  This reproduces `re.findall` for the money pattern of the source. -/
def findDecimalsAux : Nat → List Char → List String
  | 0, _ => []
  | _ + 1, [] => []
  | fuel + 1, c :: rest =>
    let run := (c :: rest).takeWhile Char.isDigit
    if run.isEmpty then findDecimalsAux fuel rest
    else
      match (c :: rest).drop run.length with
      | d :: d1 :: d2 :: rest2 =>
        if d == '.' && d1.isDigit && d2.isDigit then
          String.mk (run ++ d :: d1 :: [d2]) :: findDecimalsAux fuel rest2
        else findDecimalsAux fuel rest
      | _ => findDecimalsAux fuel rest

/-- Model of `re.findall` with the money pattern (digits, dot, two digits). -/
def findDecimals (s : String) : List String :=
  findDecimalsAux s.data.length s.data

/-- Model of `float(nums[-1])` applied to the money-pattern matches, returning
`none` when the match list is empty (the source then keeps the old value). -/
def lastDec (s : String) : Option ℚ :=
  (findDecimals s).getLast?.bind pyFloat?

/-- Model of Python `s.lstrip` with argument the zero digit. -/
def lstrip0 (s : String) : String :=
  String.mk (s.data.dropWhile (fun c => c == '0'))

/-- Pad a numeral string with leading zeros to width `n`. -/
def padZeros (s : String) (n : Nat) : String :=
  String.mk (List.replicate (n - s.data.length) '0') ++ s

/-! ## Label strings used by the source -/

def lblSubTotal : String := "SUB TOTAL"

def lblTax : String := "TAX"

def lblSummary : String := "SUMMARY"

def lblTaxSummary : String := "TAX SUMMARY"

def lblTotalCad : String := "TOTAL (CAD)"

def lblShipping : String := "SHIPPING"

def lblHdlg : String := "HDLG"

def lblHash : String := "#"

def askBossCode : String := "ASK BOSS"

def askBossDesc : String := "ASK BOSS FOR PROPER GL"

def shippingCode : String := "000173080"

/-! ## Table cells -/

/-- A table cell as delivered by the PDF table extractor: absent, an integer,
a float with a finite decimal value (`cdec m e` denotes `m / 10 ^ e`), or a
string. -/
inductive Cell where
  | cnone
  | cint (n : ℤ)
  | cdec (m : ℤ) (e : ℕ)
  | cstr (s : String)
deriving DecidableEq

/-- The single-quote character, used by Python `repr` of strings. -/
def squoteS : String := String.mk [Char.ofNat 39]

/-- Decimal rendering of the float `m / 10 ^ e`, as Python `repr` prints it
(always with a decimal point). -/
def cdecRepr (m : ℤ) (e : ℕ) : String :=
  if e = 0 then toString m ++ (".0")
  else
    (if m < 0 then ("-") else ("")) ++ toString (m.natAbs / 10 ^ e) ++ (".") ++
      padZeros (toString (m.natAbs % 10 ^ e)) e

/-- Python `repr` of one cell, as it appears inside `str(row)`. -/
def cellRepr : Cell → String
  | Cell.cnone => "None"
  | Cell.cint n => toString n
  | Cell.cdec m e => cdecRepr m e
  | Cell.cstr s => squoteS ++ s ++ squoteS

/-- Comma-separated join, as in Python list printing. -/
def joinComma : List String → String
  | [] => ""
  | [s] => s
  | s :: rest => s ++ (", ") ++ joinComma rest

/-- Model of `str(row)` from the source: the Python printed form of the row. -/
def rowStr (row : List Cell) : String :=
  ("[") ++ joinComma (row.map cellRepr) ++ ("]")

/-- Python truthiness of a cell (`if row[i]`). -/
def cellTruthy : Cell → Bool
  | Cell.cnone => false
  | Cell.cint n => n != 0
  | Cell.cdec m _ => m != 0
  | Cell.cstr s => s != ""

/-- Model of `isinstance(cell, str)`. -/
def isStrCell : Cell → Bool
  | Cell.cstr _ => true
  | _ => false

/-- Model of the quantity/amount acceptance from the source: the cell must be
truthy and be an int, a float, or a numeric string; the value is then what
Python `float` returns on it.  `none` models the `continue` branches. -/
def numCell? : Cell → Option ℚ
  | Cell.cnone => none
  | Cell.cint n => if n ≠ 0 then some (n : ℚ) else none
  | Cell.cdec m e => if m ≠ 0 then some ((m : ℚ) / (10 : ℚ) ^ e) else none
  | Cell.cstr s => if s ≠ "" && pyNumericStr s then pyFloat? s else none

/-- Model of `re.match` with the anchored nine-digit pattern: nine digits, or
nine digits followed by a final newline (Python dollar-anchor semantics). -/
def reMatchNine (s : String) : Bool :=
  let l := s.data
  (l.length == 9 && l.all Char.isDigit) ||
    (l.length == 10 && (l.take 9).all Char.isDigit && (l.getD 9 ' ') == '\n')

/-- Header-row test from the source: column 0 is a truthy string containing
the hash marker. -/
def headerRow (row : List Cell) : Bool :=
  match row.getD 0 Cell.cnone with
  | Cell.cstr s => s != "" && strContains s lblHash
  | _ => false

/-! ## Data model -/

/-- A line item as first extracted (accounting fields not yet assigned). -/
structure RawItem where
  code : String
  qty : ℚ
  total : ℚ
deriving DecidableEq

/-- A reconciled line item. -/
structure Item where
  code : String
  qty : ℚ
  total : ℚ
  glCode : String
  glDesc : String
deriving DecidableEq

/-- One row of the reference (GL code) table. -/
structure RefEntry where
  itemCode : String
  glCode : String
  glDesc : String
deriving DecidableEq

/-- Mutable state of the table-driven pass of `process_starbucks_invoice`. -/
structure TState where
  items : List RawItem
  subtotal : ℚ
  tax : ℚ
  total : ℚ
  ship : ℚ
  tablesProcessed : Bool
deriving DecidableEq

def initState : TState := ⟨[], 0, 0, 0, 0, false⟩

/-! ## Table-driven pass (`process_starbucks_invoice`, row loop) -/

/-- The totals `if`/`elif` chain run on every surviving row: route the last
money-pattern number of the printed row to subtotal, tax (unless the row also
mentions the summary label), or total.  The source does not `continue` here. -/
def totalsPhase (st : TState) (rs : String) : TState :=
  if strContains rs lblSubTotal then
    { st with subtotal := (lastDec rs).getD st.subtotal }
  else if strContains rs lblTax && !strContains rs lblSummary then
    { st with tax := (lastDec rs).getD st.tax }
  else if strContains rs lblTotalCad then
    { st with total := (lastDec rs).getD st.total }
  else st

/-- The line-item parse of a row: column 1 must be a nine-digit string,
columns 7 and 9 must be accepted numeric cells, and both values must be
strictly positive; only then is an item appended. -/
def itemParse (st : TState) (row : List Cell) : TState :=
  match row.getD 1 Cell.cnone with
  | Cell.cstr code =>
    if reMatchNine code then
      match numCell? (row.getD 7 Cell.cnone), numCell? (row.getD 9 Cell.cnone) with
      | some q, some a =>
        if 0 < q ∧ 0 < a then
          { st with items := st.items ++ [⟨code, q, a⟩], tablesProcessed := true }
        else st
      | _, _ => st
    else st
  | _ => st

/-- After the totals chain: skip unless column 1 is a truthy string, then
handle shipping rows (routed and skipped), then attempt the line-item parse. -/
def itemPhase (st : TState) (row : List Cell) (rs : String) : TState :=
  if !cellTruthy (row.getD 1 Cell.cnone) || !isStrCell (row.getD 1 Cell.cnone) then st
  else if strContains rs lblShipping || strContains rs lblHdlg then
    { st with ship := (lastDec rs).getD st.ship }
  else itemParse st row

/-- One iteration of the row loop of `process_starbucks_invoice`. -/
def processRow (st : TState) (row : List Cell) : TState :=
  if row.length < 10 then st
  else if headerRow row then st
  else itemPhase (totalsPhase st (rowStr row)) row (rowStr row)

/-- The full table-driven pass over all extracted tables. -/
def tablePass (tables : List (List (List Cell))) : TState :=
  tables.foldl (fun st tb => tb.foldl processRow st) initState

/-! ## `extract_items_from_starbucks_invoice` -/

/-- The hard-coded known-items list from the source. -/
def sampleItems : List RawItem :=
  [⟨"011120225", 16, 6256/100⟩,
   ⟨"011107006", 48, 19248/100⟩,
   ⟨"011039690", 6, 4020/100⟩,
   ⟨"011119849", 480, 128640/100⟩,
   ⟨"011087054", 24, 9960/100⟩,
   ⟨"011104438", 12, 8376/100⟩,
   ⟨"011048109", 60, 65700/100⟩,
   ⟨"011051145", 6, 7140/100⟩,
   ⟨"011092210", 30, 18000/100⟩,
   ⟨"011147043", 12, 13260/100⟩,
   ⟨"011147042", 24, 32160/100⟩,
   ⟨"011112621", 100, 9100/100⟩,
   ⟨"011124712", 324, 94284/100⟩,
   ⟨"011096120", 330, 62370/100⟩,
   ⟨"011104506", 315, 75285/100⟩,
   ⟨"011127439", 63, 23877/100⟩,
   ⟨"011141348", 60, 25440/100⟩,
   ⟨"011070181", 84, 38640/100⟩,
   ⟨"011084236", 192, 23040/100⟩,
   ⟨"011084235", 270, 31050/100⟩,
   ⟨"011053916", 72, 10872/100⟩,
   ⟨"011053919", 80, 3040/100⟩,
   ⟨"011158844", 120, 9600/100⟩,
   ⟨"011077811", 270, 29430/100⟩,
   ⟨"011091451", 126, 20538/100⟩,
   ⟨"011114037", 320, 51840/100⟩,
   ⟨"011112622", 25, 1675/100⟩,
   ⟨"011096116", 288, 68832/100⟩,
   ⟨"011096117", 96, 19008/100⟩,
   ⟨"011106074", 120, 37080/100⟩,
   ⟨"011054031", 420, 130620/100⟩,
   ⟨"011105398", 135, 35910/100⟩,
   ⟨"011086415", 84, 23268/100⟩,
   ⟨"011083338", 90, 40590/100⟩,
   ⟨"011054038", 54, 18846/100⟩,
   ⟨"011147653", 54, 14256/100⟩,
   ⟨"011124142", 48, 14304/100⟩,
   ⟨"011073715", 150, 8250/100⟩,
   ⟨"011089681", 24, 1848/100⟩,
   ⟨"011128917", 150, 17700/100⟩,
   ⟨"011130862", 80, 6800/100⟩,
   ⟨"011161954", 240, 43680/100⟩,
   ⟨"011049066", 144, 12816/100⟩,
   ⟨"011146832", 114, 14592/100⟩,
   ⟨"011166786", 480, 11520/100⟩,
   ⟨"011163613", 54, 15660/100⟩,
   ⟨"011169125", 126, 35658/100⟩,
   ⟨"011119372", 12, 2700/100⟩,
   ⟨"011076078", 96, 15456/100⟩,
   ⟨"011074672", 108, 15336/100⟩,
   ⟨"011094362", 24, 3936/100⟩,
   ⟨"011046399", 72, 13896/100⟩,
   ⟨"011140121", 24, 2568/100⟩,
   ⟨"011140122", 24, 2568/100⟩,
   ⟨"011162946", 72, 12528/100⟩,
   ⟨"011162943", 72, 12528/100⟩,
   ⟨"011016558", 400, 8000/100⟩,
   ⟨"011039722", 1, 2161/100⟩,
   ⟨"011130854", 200, 2800/100⟩,
   ⟨"011127596", 42, 11760/100⟩,
   ⟨"011127598", 36, 10080/100⟩,
   ⟨"011146627", 12, 3180/100⟩,
   ⟨"000173080", 1, 33228/100⟩]

/-- The known-items bootstrap: keep the sample entries whose code appears as
a substring of the raw document text. -/
def samplePass (text : String) : List RawItem :=
  sampleItems.filter (fun it => strContains text it.code)

/-! ### The text-pattern fallback regex

The source scans each line with the pattern: nine digits, one or more
non-digits, a run of digits/dots, one or more non-digits, a run of
digits/dots, anchored at end of line.  The model below reproduces the
leftmost-then-greedy backtracking of Python for that fixed pattern. -/

/-- Whether a character is in the class digits-or-dot. -/
def dotDigit (c : Char) : Bool := c.isDigit || c == '.'

/-- The final captured group plus the end anchor: the remaining characters
must form a nonempty run of digits/dots. -/
def g3chk (l : List Char) : Bool := !l.isEmpty && l.all dotDigit

/-- Try `f` on `k, k-1, ..., 1`, the backtracking order of a greedy `+`. -/
def tryFrom {α : Type} (f : Nat → Option α) : Nat → Option α
  | 0 => none
  | k + 1 =>
    match f (k + 1) with
    | some r => some r
    | none => tryFrom f k

/-- Match the non-digit separator followed by the last group and the anchor;
returns the last captured group. -/
def sep2g3 (l : List Char) : Option (List Char) :=
  tryFrom (fun k => if g3chk (l.drop k) then some (l.drop k) else none)
    ((l.takeWhile (fun c => !c.isDigit)).length)

/-- Match the middle group (greedy digits/dots) and everything after it;
returns the middle and last captured groups. -/
def g2chain (l : List Char) : Option (List Char × List Char) :=
  tryFrom (fun k =>
      match sep2g3 (l.drop k) with
      | some g3 => some (l.take k, g3)
      | none => none)
    ((l.takeWhile dotDigit).length)

/-- Match the first non-digit separator and everything after it. -/
def sep1chain (l : List Char) : Option (List Char × List Char) :=
  tryFrom (fun k => g2chain (l.drop k))
    ((l.takeWhile (fun c => !c.isDigit)).length)

/-- Try the whole pattern at the current position: nine digits, then the
separator/group chain through to the end anchor. -/
def matchAt (l : List Char) : Option (String × String × String) :=
  if (l.take 9).length == 9 && (l.take 9).all Char.isDigit then
    match sep1chain (l.drop 9) with
    | some (g2, g3) => some (String.mk (l.take 9), String.mk g2, String.mk g3)
    | none => none
  else none

/-- Leftmost match of the pattern in a line, as `re.findall` finds it (the
end anchor makes a second non-overlapping match impossible). -/
def scanMatch : List Char → Option (String × String × String)
  | [] => none
  | c :: rest =>
    match matchAt (c :: rest) with
    | some r => some r
    | none => scanMatch rest

/-- The per-line regex fallback of `extract_items_from_starbucks_invoice`:
the match of each line becomes an item when both captured numbers parse as floats;
a failed conversion skips the match silently. -/
def regexPass (text : String) : List RawItem :=
  (splitNl text).foldl (fun acc line =>
      match scanMatch line.data with
      | some (code, qs, ps) =>
        match pyFloat? qs, pyFloat? ps with
        | some q, some p => acc ++ [⟨code, q, p⟩]
        | _, _ => acc
      | none => acc)
    []

/-- `extract_items_from_starbucks_invoice` from the source: the known-items
substring pass; if it yields anything it is returned as-is, otherwise the
line-by-line regex fallback runs. -/
def extract_items_from_starbucks_invoice (text : String) : List RawItem :=
  let items := samplePass text
  if items.isEmpty then regexPass text else items

/-! ## Text-based totals fallback (`process_starbucks_invoice`, lines 270-292) -/

/-- Result of the totals extraction. -/
structure TotOut where
  subtotal : ℚ
  tax : ℚ
  total : ℚ
  ship : ℚ
deriving DecidableEq

/-- One line of the subtotal/tax/total text scan (the `elif` chain; note the
tax guard here excludes only the exact phrase TAX SUMMARY). -/
def totalsLineStep (acc : ℚ × ℚ × ℚ) (line : String) : ℚ × ℚ × ℚ :=
  if strContains line lblSubTotal then ((lastDec line).getD acc.1, acc.2.1, acc.2.2)
  else if strContains line lblTax && !strContains line lblTaxSummary then
    (acc.1, (lastDec line).getD acc.2.1, acc.2.2)
  else if strContains line lblTotalCad then (acc.1, acc.2.1, (lastDec line).getD acc.2.2)
  else acc

/-- One line of the shipping text scan. -/
def shipLineStep (sh : ℚ) (line : String) : ℚ :=
  if strContains line lblShipping || strContains line lblHdlg then
    (lastDec line).getD sh
  else sh

/-- The text fallback for totals: the subtotal/tax/total scan runs whenever
any of the three is still zero; the shipping scan runs whenever shipping is
still zero. -/
def textTotals (text : String) (s t tot sh : ℚ) : TotOut :=
  let st3 :=
    if s = 0 ∨ t = 0 ∨ tot = 0 then (splitNl text).foldl totalsLineStep (s, t, tot)
    else (s, t, tot)
  let sh2 := if sh = 0 then (splitNl text).foldl shipLineStep sh else sh
  ⟨st3.1, st3.2.1, st3.2.2, sh2⟩

/-! ## Reconciliation and the full pipeline -/

/-- The reconciliation of one item against the reference table: exact code
match first, then the leading-zero-stripped match, then the sentinels. -/
def reconcile (db : List RefEntry) (it : RawItem) : Item :=
  match db.find? (fun e => e.itemCode == it.code) with
  | some e => ⟨it.code, it.qty, it.total, e.glCode, e.glDesc⟩
  | none =>
    match db.find? (fun e => lstrip0 e.itemCode == lstrip0 it.code) with
    | some e => ⟨it.code, it.qty, it.total, e.glCode, e.glDesc⟩
    | none => ⟨it.code, it.qty, it.total, askBossCode, askBossDesc⟩

/-- Result of `process_starbucks_invoice`. -/
structure POut where
  items : List Item
  ship : ℚ
  subtotal : ℚ
  tax : ℚ
  total : ℚ
deriving DecidableEq

/-- `process_starbucks_invoice` from the source: the table pass, then the
text extraction fallback when the table pass yielded nothing, then the text
totals fallback, then the reconciliation loop. -/
def process_starbucks_invoice (text : String) (tables : List (List (List Cell)))
    (db : List RefEntry) : POut :=
  let st := tablePass tables
  let raw :=
    if !st.tablesProcessed || st.items.isEmpty then extract_items_from_starbucks_invoice text
    else st.items
  let t4 := textTotals text st.subtotal st.tax st.total st.ship
  ⟨raw.map (reconcile db), t4.ship, t4.subtotal, t4.tax, t4.total⟩

/-! ## Summary aggregation (`generate_summary`) and the pipeline driver -/

/-- Python dictionary update `summary[d] += a` / `summary[d] = a` on an
association list. -/
def addToSummary : List (String × ℚ) → String → ℚ → List (String × ℚ)
  | [], d, a => [(d, a)]
  | (k, v) :: rest, d, a =>
    if k == d then (k, v + a) :: rest else (k, v) :: addToSummary rest d a

/-- One item of the summary loop: the fixed shipping-code item is skipped,
every other item adds its line total to its GL-description bucket. -/
def summStep (s : List (String × ℚ)) (it : Item) : List (String × ℚ) :=
  if it.code == shippingCode then s else addToSummary s it.glDesc it.total

/-- `generate_summary` from the source. -/
def generate_summary (items : List Item) : List (String × ℚ) :=
  if items.isEmpty then [] else items.foldl summStep []

/-- Observer: the amount a summary holds for a description (zero if absent). -/
def summaryGet : List (String × ℚ) → String → ℚ
  | [], _ => 0
  | (k, v) :: rest, d => if k == d then v else summaryGet rest d

/-- The final report assembled by `main`. -/
structure Report where
  items : List Item
  summary : List (String × ℚ)
  ship : ℚ
  tax : ℚ
  calcSubtotal : ℚ
  calcTotal : ℚ
deriving DecidableEq

/-- The pipeline driver `main`: when no items were extracted the run stops
with no report (`generate_summary` is never reached); otherwise the summary
and the recomputed subtotal/total are produced. -/
def main_run (text : String) (tables : List (List (List Cell)))
    (db : List RefEntry) : Option Report :=
  let p := process_starbucks_invoice text tables db
  if p.items.isEmpty then none
  else
    let summary := generate_summary p.items
    let csub := (summary.map (fun kv => kv.2)).sum
    some ⟨p.items, summary, p.ship, p.tax, csub, csub + p.ship + p.tax⟩

/-! ## Frame lemmas for the row phases -/

theorem totalsPhase_items (st : TState) (rs : String) :
    (totalsPhase st rs).items = st.items := by
  unfold totalsPhase
  repeat' split
  all_goals rfl

theorem totalsPhase_ship (st : TState) (rs : String) :
    (totalsPhase st rs).ship = st.ship := by
  unfold totalsPhase
  repeat' split
  all_goals rfl

theorem totalsPhase_tax_of_summary (st : TState) (rs : String)
    (h : strContains rs lblSummary = true) :
    (totalsPhase st rs).tax = st.tax := by
  unfold totalsPhase
  repeat' split
  all_goals first
  | rfl
  | (rename_i hc; simp [h] at hc)

theorem totalsPhase_subtotal_of (st : TState) (rs : String)
    (h : strContains rs lblSubTotal = true) :
    (totalsPhase st rs).subtotal = (lastDec rs).getD st.subtotal := by
  unfold totalsPhase
  rw [if_pos h]

theorem itemParse_subtotal (st : TState) (row : List Cell) :
    (itemParse st row).subtotal = st.subtotal := by
  unfold itemParse
  repeat' split
  all_goals rfl

theorem itemParse_tax (st : TState) (row : List Cell) :
    (itemParse st row).tax = st.tax := by
  unfold itemParse
  repeat' split
  all_goals rfl

theorem itemParse_total (st : TState) (row : List Cell) :
    (itemParse st row).total = st.total := by
  unfold itemParse
  repeat' split
  all_goals rfl

theorem itemParse_ship (st : TState) (row : List Cell) :
    (itemParse st row).ship = st.ship := by
  unfold itemParse
  repeat' split
  all_goals rfl

theorem itemPhase_subtotal (st : TState) (row : List Cell) (rs : String) :
    (itemPhase st row rs).subtotal = st.subtotal := by
  unfold itemPhase
  repeat' split
  all_goals first | rfl | exact itemParse_subtotal st row

theorem itemPhase_tax (st : TState) (row : List Cell) (rs : String) :
    (itemPhase st row rs).tax = st.tax := by
  unfold itemPhase
  repeat' split
  all_goals first | rfl | exact itemParse_tax st row

/-! ## Items produced by a row step -/

theorem itemParse_items_mem (st : TState) (row : List Cell) (it : RawItem)
    (h : it ∈ (itemParse st row).items) :
    it ∈ st.items ∨ (0 < it.qty ∧ 0 < it.total) := by
  unfold itemParse at h
  repeat' split at h
  all_goals try exact Or.inl h
  rename_i code hnine q a hq ha hpos
  simp only [List.mem_append, List.mem_singleton] at h
  rcases h with h | h
  · exact Or.inl h
  · subst h
    exact Or.inr hpos

theorem itemPhase_items_mem (st : TState) (row : List Cell) (rs : String) (it : RawItem)
    (h : it ∈ (itemPhase st row rs).items) :
    it ∈ st.items ∨ (0 < it.qty ∧ 0 < it.total) := by
  unfold itemPhase at h
  repeat' split at h
  · exact Or.inl h
  · exact Or.inl h
  · exact itemParse_items_mem st row it h

theorem processRow_items_mem (st : TState) (row : List Cell) (it : RawItem)
    (h : it ∈ (processRow st row).items) :
    it ∈ st.items ∨ (0 < it.qty ∧ 0 < it.total) := by
  unfold processRow at h
  repeat' split at h
  · exact Or.inl h
  · exact Or.inl h
  · have h2 := itemPhase_items_mem _ row (rowStr row) it h
    rcases h2 with h2 | h2
    · rw [totalsPhase_items] at h2
      exact Or.inl h2
    · exact Or.inr h2

theorem foldRows_items_mem (rows : List (List Cell)) (st : TState) (it : RawItem)
    (h : it ∈ (rows.foldl processRow st).items) :
    it ∈ st.items ∨ (0 < it.qty ∧ 0 < it.total) := by
  induction rows generalizing st with
  | nil => exact Or.inl h
  | cons row rest ih =>
    simp only [List.foldl_cons] at h
    rcases ih (processRow st row) h with h2 | h2
    · exact processRow_items_mem st row it h2
    · exact Or.inr h2

theorem foldTables_items_mem (tables : List (List (List Cell))) (st : TState) (it : RawItem)
    (h : it ∈ (tables.foldl (fun s tb => tb.foldl processRow s) st).items) :
    it ∈ st.items ∨ (0 < it.qty ∧ 0 < it.total) := by
  induction tables generalizing st with
  | nil => exact Or.inl h
  | cons tb rest ih =>
    simp only [List.foldl_cons] at h
    rcases ih (tb.foldl processRow st) h with h2 | h2
    · exact foldRows_items_mem tb st it h2
    · exact Or.inr h2

/-! ## Summary lemmas -/

theorem generate_summary_eq_fold (items : List Item) :
    generate_summary items = items.foldl summStep [] := by
  cases items with
  | nil => rfl
  | cons a l => rfl

theorem summaryGet_addToSummary_same (s : List (String × ℚ)) (d : String) (a : ℚ) :
    summaryGet (addToSummary s d a) d = summaryGet s d + a := by
  induction s with
  | nil => simp [addToSummary, summaryGet]
  | cons kv rest ih =>
    obtain ⟨k, v⟩ := kv
    by_cases hk : k == d
    · simp [addToSummary, summaryGet, hk]
    · simp [addToSummary, summaryGet, hk, ih]

theorem summaryGet_addToSummary_other (s : List (String × ℚ)) (d d2 : String) (a : ℚ)
    (h : d ≠ d2) :
    summaryGet (addToSummary s d a) d2 = summaryGet s d2 := by
  induction s with
  | nil => simp [addToSummary, summaryGet, h]
  | cons kv rest ih =>
    obtain ⟨k, v⟩ := kv
    by_cases hk : k == d
    · have hkd : k = d := by simpa using hk
      subst hkd
      simp [addToSummary, summaryGet, h]
    · simp [addToSummary, summaryGet, hk, ih]

theorem summFold_filter_ship (items : List Item) (s : List (String × ℚ)) :
    items.foldl summStep s =
      (items.filter (fun it => !(it.code == shippingCode))).foldl summStep s := by
  induction items generalizing s with
  | nil => rfl
  | cons it rest ih =>
    by_cases hc : it.code == shippingCode
    · simp only [List.foldl_cons, List.filter_cons, hc]
      rw [show summStep s it = s from by simp [summStep, hc]]
      exact ih s
    · simp only [List.foldl_cons, List.filter_cons, hc]
      exact ih (summStep s it)

/-! ## Lookup lemmas for reconciliation -/

theorem find?_exact_eq_none (db : List RefEntry) (code : String)
    (h : ∀ e ∈ db, e.itemCode ≠ code) :
    db.find? (fun e => e.itemCode == code) = none := by
  apply List.find?_eq_none.2
  intro e he
  simp [h e he]

/-! ## Claim C10 -/

/-- C10: reconciliation only adds accounting fields — for every item the
matching loop (a map of `reconcile` over the extracted list) leaves code,
quantity and line total unchanged, and the resulting item carries a GL
code/description pair taken together from one reference entry, or the two
sentinels together. -/
theorem c10_reconcile_frame (db : List RefEntry) (it : RawItem) :
    (reconcile db it).code = it.code ∧ (reconcile db it).qty = it.qty ∧
      (reconcile db it).total = it.total ∧
      ((∃ e, e ∈ db ∧ (reconcile db it).glCode = e.glCode ∧
          (reconcile db it).glDesc = e.glDesc) ∨
        ((reconcile db it).glCode = askBossCode ∧ (reconcile db it).glDesc = askBossDesc)) := by
  unfold reconcile
  cases h1 : db.find? (fun e => e.itemCode == it.code) with
  | some e => exact ⟨rfl, rfl, rfl, Or.inl ⟨e, List.mem_of_find?_eq_some h1, rfl, rfl⟩⟩
  | none =>
    cases h2 : db.find? (fun e => lstrip0 e.itemCode == lstrip0 it.code) with
    | some e => exact ⟨rfl, rfl, rfl, Or.inl ⟨e, List.mem_of_find?_eq_some h2, rfl, rfl⟩⟩
    | none => exact ⟨rfl, rfl, rfl, Or.inr ⟨rfl, rfl⟩⟩

/-! ## Claim C4 -/

/-- C4: when no exact match exists but some reference entry agrees with the
item code after stripping leading zeros from both, reconciliation succeeds
and assigns the GL code and description of the first such entry. -/
theorem c4_zero_strip_match (db : List RefEntry) (it : RawItem)
    (hex : ∀ e ∈ db, e.itemCode ≠ it.code)
    (e0 : RefEntry) (he : e0 ∈ db) (hstrip : lstrip0 e0.itemCode = lstrip0 it.code) :
    ∃ e1, db.find? (fun e => lstrip0 e.itemCode == lstrip0 it.code) = some e1 ∧
      lstrip0 e1.itemCode = lstrip0 it.code ∧
      (reconcile db it).glCode = e1.glCode ∧ (reconcile db it).glDesc = e1.glDesc := by
  have hnone := find?_exact_eq_none db it.code hex
  have hsome : (db.find? (fun e => lstrip0 e.itemCode == lstrip0 it.code)).isSome := by
    rw [List.find?_isSome]
    exact ⟨e0, he, by simp [hstrip]⟩
  obtain ⟨e1, h1⟩ := Option.isSome_iff_exists.1 hsome
  have hp : lstrip0 e1.itemCode = lstrip0 it.code := by
    have := List.find?_some h1
    simpa using this
  refine ⟨e1, h1, hp, ?_, ?_⟩
  · unfold reconcile
    rw [hnone, h1]
  · unfold reconcile
    rw [hnone, h1]

/-- Witness for C4 at the example given by the spec: item code 011120225 against a
reference code 11120225 stored without leading zeros. -/
theorem c4_witness :
    ∃ e1, (([⟨"11120225", "5000", "COFFEE SUPPLIES"⟩] : List RefEntry).find?
        (fun e => lstrip0 e.itemCode ==
          lstrip0 (⟨"011120225", 16, 6256/100⟩ : RawItem).code)) = some e1 ∧
      lstrip0 e1.itemCode = lstrip0 (⟨"011120225", 16, 6256/100⟩ : RawItem).code ∧
      (reconcile [⟨"11120225", "5000", "COFFEE SUPPLIES"⟩]
          ⟨"011120225", 16, 6256/100⟩).glCode = e1.glCode ∧
      (reconcile [⟨"11120225", "5000", "COFFEE SUPPLIES"⟩]
          ⟨"011120225", 16, 6256/100⟩).glDesc = e1.glDesc := by
  exact c4_zero_strip_match [⟨"11120225", "5000", "COFFEE SUPPLIES"⟩]
    ⟨"011120225", 16, 6256/100⟩ (by decide)
    ⟨"11120225", "5000", "COFFEE SUPPLIES"⟩ (by simp) (by decide)

/-! ## Claim C5 (corrected) -/

/-- Counterexample to C5 as stated: an unmatched item whose code is the fixed
shipping code 000173080 receives both sentinels, yet contributes nothing to
the Summary — `generate_summary` skips it, so its line total of 332.28 does
not appear under the sentinel description. -/
theorem c5_counterexample :
    (reconcile [] ⟨shippingCode, 1, 33228/100⟩).glCode = askBossCode ∧
      (reconcile [] ⟨shippingCode, 1, 33228/100⟩).glDesc = askBossDesc ∧
      generate_summary [reconcile [] ⟨shippingCode, 1, 33228/100⟩] = [] ∧
      summaryGet (generate_summary [reconcile [] ⟨shippingCode, 1, 33228/100⟩])
        askBossDesc = 0 := by
  decide

/-- C5 amended: an item matching no reference entry exactly or after zero
stripping gets both sentinels, and — provided its code is not the fixed
shipping code 000173080 — still contributes its full line total to the
Summary bucket of the sentinel description. -/
theorem c5_sentinel_amended (db : List RefEntry) (it : RawItem) (items : List Item)
    (hex : ∀ e ∈ db, e.itemCode ≠ it.code)
    (hstrip : ∀ e ∈ db, lstrip0 e.itemCode ≠ lstrip0 it.code)
    (hship : it.code ≠ shippingCode) :
    (reconcile db it).glCode = askBossCode ∧ (reconcile db it).glDesc = askBossDesc ∧
      summaryGet (generate_summary (items ++ [reconcile db it])) askBossDesc =
        summaryGet (generate_summary items) askBossDesc + it.total := by
  have h1 := find?_exact_eq_none db it.code hex
  have h2 : db.find? (fun e => lstrip0 e.itemCode == lstrip0 it.code) = none := by
    apply List.find?_eq_none.2
    intro e he
    simp [hstrip e he]
  have hrec : reconcile db it = ⟨it.code, it.qty, it.total, askBossCode, askBossDesc⟩ := by
    unfold reconcile
    rw [h1, h2]
  refine ⟨by rw [hrec], by rw [hrec], ?_⟩
  rw [generate_summary_eq_fold, generate_summary_eq_fold, List.foldl_append]
  simp only [List.foldl_cons, List.foldl_nil]
  rw [hrec]
  have hstep : summStep (items.foldl summStep [])
      ⟨it.code, it.qty, it.total, askBossCode, askBossDesc⟩ =
      addToSummary (items.foldl summStep []) askBossDesc it.total := by
    simp [summStep, hship]
  rw [hstep, summaryGet_addToSummary_same]

/-- Witness for C5 at the unmatched-code scenario of the spec: code 999999999
absent from the reference table. -/
theorem c5_witness :
    (reconcile [] ⟨"999999999", 1, 10⟩).glCode = askBossCode ∧
      (reconcile [] ⟨"999999999", 1, 10⟩).glDesc = askBossDesc ∧
      summaryGet (generate_summary ([] ++ [reconcile [] ⟨"999999999", 1, 10⟩])) askBossDesc =
        summaryGet (generate_summary []) askBossDesc + 10 := by
  exact c5_sentinel_amended [] ⟨"999999999", 1, 10⟩ []
    (by decide) (by decide) (by decide)

/-! ## Claim C6 -/

/-- C6: an item carrying the fixed shipping code 000173080 never contributes
to any bucket of the Summary — the aggregate over any item list equals the
aggregate over the same list with all shipping-code items removed. -/
theorem c6_shipping_excluded (items : List Item) :
    generate_summary items =
      generate_summary (items.filter (fun it => !(it.code == shippingCode))) := by
  rw [generate_summary_eq_fold, generate_summary_eq_fold]
  exact summFold_filter_ship items []

/-! ## Claim C7 -/

theorem itemParse_items_of_badcell (st : TState) (row : List Cell)
    (h : numCell? (row.getD 7 Cell.cnone) = none ∨ numCell? (row.getD 9 Cell.cnone) = none) :
    (itemParse st row).items = st.items := by
  unfold itemParse
  repeat' split
  all_goals first | rfl | (rcases h with h | h <;> simp_all)

theorem itemPhase_items_of_badcell (st : TState) (row : List Cell) (rs : String)
    (h : numCell? (row.getD 7 Cell.cnone) = none ∨ numCell? (row.getD 9 Cell.cnone) = none) :
    (itemPhase st row rs).items = st.items := by
  unfold itemPhase
  repeat' split
  · rfl
  · rfl
  · exact itemParse_items_of_badcell st row h

/-- C7: every item produced by the table-driven pass has strictly positive
quantity and line total, and a row whose designated quantity cell (column 7)
or amount cell (column 9) is rejected by the numeric acceptance check is
discarded silently — it appends no item. -/
theorem c7_table_items_positive :
    (∀ (tables : List (List (List Cell))) (it : RawItem),
        it ∈ (tablePass tables).items → 0 < it.qty ∧ 0 < it.total) ∧
      (∀ (st : TState) (row : List Cell),
        (numCell? (row.getD 7 Cell.cnone) = none ∨
          numCell? (row.getD 9 Cell.cnone) = none) →
        (processRow st row).items = st.items) := by
  constructor
  · intro tables it h
    rcases foldTables_items_mem tables initState it h with h2 | h2
    · simp [initState] at h2
    · exact h2
  · intro st row h
    unfold processRow
    split
    · rfl
    · split
      · rfl
      · rw [itemPhase_items_of_badcell _ row _ h, totalsPhase_items]

/-- A well-formed item row: code 555555555, quantity 2, amount 3.50. -/
def c7row : List Cell :=
  [Cell.cstr ("x"), Cell.cstr ("555555555"), Cell.cnone, Cell.cnone, Cell.cnone,
   Cell.cnone, Cell.cnone, Cell.cstr ("2"), Cell.cnone, Cell.cstr ("3.50")]

/-- The same row with the quantity cell absent. -/
def c7badrow : List Cell :=
  [Cell.cstr ("x"), Cell.cstr ("555555555"), Cell.cnone, Cell.cnone, Cell.cnone,
   Cell.cnone, Cell.cnone, Cell.cnone, Cell.cnone, Cell.cstr ("3.50")]

/-- Witness for C7: the item extracted from a concrete valid row is positive
in both fields, and the same row with a missing quantity cell yields nothing. -/
theorem c7_witness :
    (0 < ((⟨"555555555", 2, 35/10⟩ : RawItem)).qty ∧
        0 < ((⟨"555555555", 2, 35/10⟩ : RawItem)).total) ∧
      (processRow initState c7badrow).items = initState.items := by
  constructor
  · exact c7_table_items_positive.1 [[c7row]] ⟨"555555555", 2, 35/10⟩
      (by with_unfolding_all decide)
  · exact c7_table_items_positive.2 initState c7badrow (Or.inl (by decide))

/-! ## Claim C2 (corrected) -/

/-- A table row that sets the subtotal accumulator to 5.00. -/
def c2row : List Cell :=
  [Cell.cstr ("SUB TOTAL"), Cell.cnone, Cell.cnone, Cell.cnone, Cell.cnone,
   Cell.cnone, Cell.cnone, Cell.cnone, Cell.cnone, Cell.cstr ("5.00")]

/-- Counterexample to C2 as stated: the table pass sets subtotal to 5.00 and
leaves tax and total at zero, so the text fallback runs — and overwrites the
already-set subtotal with 9.99 found in the text.  A non-zero value set by
the table pass is therefore not left unchanged. -/
theorem c2_counterexample :
    (tablePass [[c2row]]).subtotal = 5 ∧
      (process_starbucks_invoice ("SUB TOTAL 9.99") [[c2row]] []).subtotal = 999/100 ∧
      ((999 : ℚ)/100 ≠ 5) := by
  with_unfolding_all decide

/-- C2 amended: the shipping figure is protected per-field (a non-zero value
is never overwritten by the text scan), while subtotal, tax and total are
protected only jointly — they are left unchanged when all three are non-zero
after the table pass; if any of the three is still zero the scan reruns over
every line and may overwrite the others. -/
theorem c2_amended_no_overwrite (text : String) (s t tot sh : ℚ) :
    (sh ≠ 0 → (textTotals text s t tot sh).ship = sh) ∧
      (s ≠ 0 → t ≠ 0 → tot ≠ 0 →
        (textTotals text s t tot sh).subtotal = s ∧
          (textTotals text s t tot sh).tax = t ∧
          (textTotals text s t tot sh).total = tot) := by
  constructor
  · intro hsh
    unfold textTotals
    simp [hsh]
  · intro hs ht htot
    unfold textTotals
    simp [hs, ht, htot]

/-- Witness for C2 (amended): with all four accumulators non-zero, the text
scan changes nothing. -/
theorem c2_witness :
    (textTotals ("X") 1 2 3 4).ship = 4 ∧
      ((textTotals ("X") 1 2 3 4).subtotal = 1 ∧ (textTotals ("X") 1 2 3 4).tax = 2 ∧
        (textTotals ("X") 1 2 3 4).total = 3) := by
  exact ⟨(c2_amended_no_overwrite ("X") 1 2 3 4).1 (by decide),
    (c2_amended_no_overwrite ("X") 1 2 3 4).2 (by decide) (by decide) (by decide)⟩

/-! ## Claim C9 (corrected) -/

/-- Counterexample to C9 as stated: the text line SUMMARY TAX 9.99 contains
both TAX and SUMMARY, yet the text scan sets the tax accumulator from it —
the text-pass guard only excludes the exact phrase TAX SUMMARY. -/
theorem c9_counterexample :
    strContains ("SUMMARY TAX 9.99") lblTax = true ∧
      strContains ("SUMMARY TAX 9.99") lblSummary = true ∧
      (textTotals ("SUMMARY TAX 9.99") 0 0 0 0).tax = 999/100 := by
  with_unfolding_all decide

/-- C9 amended: in the table pass any row mentioning SUMMARY leaves the tax
accumulator unchanged, while in the text pass only a line containing the
exact phrase TAX SUMMARY is excluded from setting tax. -/
theorem c9_amended_tax_guard :
    (∀ (st : TState) (row : List Cell),
        strContains (rowStr row) lblSummary = true →
        (processRow st row).tax = st.tax) ∧
      (∀ (acc : ℚ × ℚ × ℚ) (line : String),
        strContains line lblTaxSummary = true →
        (totalsLineStep acc line).2.1 = acc.2.1) := by
  constructor
  · intro st row h
    unfold processRow
    split
    · rfl
    · split
      · rfl
      · rw [itemPhase_tax, totalsPhase_tax_of_summary st (rowStr row) h]
  · intro acc line h
    unfold totalsLineStep
    repeat' split
    all_goals first | rfl | (rename_i hc; simp [h] at hc)

/-- A row whose printed form contains TAX SUMMARY. -/
def c9row : List Cell := [Cell.cstr ("TAX SUMMARY 4.00")]

/-- Witness for C9 (amended) at concrete inputs. -/
theorem c9_witness :
    (processRow initState c9row).tax = initState.tax ∧
      (totalsLineStep (1, 2, 3) ("TAX SUMMARY 5.00")).2.1 = 2 := by
  constructor
  · exact c9_amended_tax_guard.1 initState c9row (by decide)
  · exact c9_amended_tax_guard.2 (1, 2, 3) ("TAX SUMMARY 5.00") (by decide)

/-! ## Claim C3 (corrected) -/

/-- A row that contains the SUB TOTAL label in one cell and also parses as a
valid line item (code 123456789, quantity 5, amount 7.50). -/
def c3row : List Cell :=
  [Cell.cstr ("x"), Cell.cstr ("123456789"), Cell.cstr ("SUB TOTAL"), Cell.cnone,
   Cell.cnone, Cell.cnone, Cell.cnone, Cell.cstr ("5"), Cell.cnone, Cell.cstr ("7.50")]

/-- Counterexample to C3 as stated: a row whose flattened text contains
SUB TOTAL is routed to the subtotal accumulator but is NOT skipped — the same
row is also accepted into the line-item list, because the totals chain of the
row loop has no skip. -/
theorem c3_counterexample :
    strContains (rowStr c3row) lblSubTotal = true ∧
      (tablePass [[c3row]]).subtotal = 15/2 ∧
      (tablePass [[c3row]]).items = [⟨"123456789", 5, 15/2⟩] := by
  with_unfolding_all decide

theorem totalsPhase_tax_set (st : TState) (rs : String)
    (h0 : strContains rs lblSubTotal = false)
    (h1 : strContains rs lblTax = true) (h2 : strContains rs lblSummary = false) :
    (totalsPhase st rs).tax = (lastDec rs).getD st.tax := by
  unfold totalsPhase
  rw [if_neg (by simp [h0]), if_pos (by simp [h1, h2])]

theorem totalsPhase_total_set (st : TState) (rs : String)
    (h0 : strContains rs lblSubTotal = false)
    (h1 : (strContains rs lblTax && !strContains rs lblSummary) = false)
    (h2 : strContains rs lblTotalCad = true) :
    (totalsPhase st rs).total = (lastDec rs).getD st.total := by
  unfold totalsPhase
  rw [if_neg (by simp [h0]), if_neg (by simp [h1]), if_pos h2]

theorem itemPhase_total (st : TState) (row : List Cell) (rs : String) :
    (itemPhase st row rs).total = st.total := by
  unfold itemPhase
  repeat' split
  all_goals first | rfl | exact itemParse_total st row

theorem itemParse_accepts (st : TState) (row : List Cell) (code : String) (q a : ℚ)
    (h1 : row.getD 1 Cell.cnone = Cell.cstr code)
    (hnine : reMatchNine code = true)
    (hq : numCell? (row.getD 7 Cell.cnone) = some q)
    (ha : numCell? (row.getD 9 Cell.cnone) = some a)
    (hpos : 0 < q ∧ 0 < a) :
    itemParse st row =
      { st with items := st.items ++ [⟨code, q, a⟩], tablesProcessed := true } := by
  unfold itemParse
  simp only [h1, hnine, hq, ha, if_true]
  rw [if_pos hpos]

/-- C3 amended: a surviving row (length at least 10, not a header) whose
printed form contains an aggregate label has the last money-pattern number of
that printed form routed to the accumulator of the first matching label in
the chain order SUB TOTAL, then TAX without SUMMARY, then TOTAL (CAD) — but
it is not skipped: when the row is not a SHIPPING/HDLG row and also parses as
a valid item row (column 1 a nine-digit string, columns 7 and 9 accepted
strictly positive numbers), it is still accepted into the line-item list.
Only SHIPPING/HDLG rows that reach the shipping check (column 1 a truthy
string) are routed to the shipping accumulator and then skipped. -/
theorem c3_amended_routing (st : TState) (row : List Cell)
    (hlen : ¬ row.length < 10) (hhdr : headerRow row = false) :
    (strContains (rowStr row) lblSubTotal = true →
        (processRow st row).subtotal = (lastDec (rowStr row)).getD st.subtotal) ∧
      (strContains (rowStr row) lblSubTotal = false →
        strContains (rowStr row) lblTax = true →
        strContains (rowStr row) lblSummary = false →
        (processRow st row).tax = (lastDec (rowStr row)).getD st.tax) ∧
      (strContains (rowStr row) lblSubTotal = false →
        (strContains (rowStr row) lblTax && !strContains (rowStr row) lblSummary) = false →
        strContains (rowStr row) lblTotalCad = true →
        (processRow st row).total = (lastDec (rowStr row)).getD st.total) ∧
      ((strContains (rowStr row) lblShipping || strContains (rowStr row) lblHdlg) = true →
        cellTruthy (row.getD 1 Cell.cnone) = true →
        isStrCell (row.getD 1 Cell.cnone) = true →
        (processRow st row).items = st.items ∧
          (processRow st row).ship = (lastDec (rowStr row)).getD st.ship) ∧
      (∀ (code : String) (q a : ℚ),
        row.getD 1 Cell.cnone = Cell.cstr code →
        reMatchNine code = true →
        (strContains (rowStr row) lblShipping || strContains (rowStr row) lblHdlg) = false →
        numCell? (row.getD 7 Cell.cnone) = some q →
        numCell? (row.getD 9 Cell.cnone) = some a →
        0 < q → 0 < a →
        (processRow st row).items = st.items ++ [⟨code, q, a⟩]) := by
  refine ⟨?_, ?_, ?_, ?_, ?_⟩
  · intro hsub
    unfold processRow
    rw [if_neg hlen, if_neg (by simp [hhdr])]
    rw [itemPhase_subtotal, totalsPhase_subtotal_of st (rowStr row) hsub]
  · intro h0 h1 h2
    unfold processRow
    rw [if_neg hlen, if_neg (by simp [hhdr])]
    rw [itemPhase_tax, totalsPhase_tax_set st (rowStr row) h0 h1 h2]
  · intro h0 h1 h2
    unfold processRow
    rw [if_neg hlen, if_neg (by simp [hhdr])]
    rw [itemPhase_total, totalsPhase_total_set st (rowStr row) h0 h1 h2]
  · intro hshp hct hstr
    unfold processRow
    rw [if_neg hlen, if_neg (by simp [hhdr])]
    unfold itemPhase
    rw [if_neg (by rw [hct, hstr]; simp), if_pos hshp]
    exact ⟨totalsPhase_items st (rowStr row), by simp [totalsPhase_ship]⟩
  · intro code q a h1 hnine hship hq ha hqpos hapos
    have hcode : code ≠ "" := by
      intro hc
      subst hc
      exact absurd hnine (by decide)
    unfold processRow
    rw [if_neg hlen, if_neg (by simp [hhdr])]
    unfold itemPhase
    rw [if_neg (by rw [h1]; simp [cellTruthy, isStrCell, hcode]), if_neg (by simp [hship])]
    rw [itemParse_accepts _ row code q a h1 hnine hq ha ⟨hqpos, hapos⟩]
    simp [totalsPhase_items]

/-- A row containing both SUB TOTAL and SHIPPING with a truthy string in
column 1, exercising the subtotal routing and the shipping skip. -/
def c3wrow : List Cell :=
  [Cell.cstr ("x"), Cell.cstr ("y"), Cell.cstr ("SUB TOTAL SHIPPING 3.25"), Cell.cnone,
   Cell.cnone, Cell.cnone, Cell.cnone, Cell.cnone, Cell.cnone, Cell.cnone]

/-- A row whose printed form contains TAX but neither SUB TOTAL nor SUMMARY. -/
def c3taxrow : List Cell :=
  [Cell.cstr ("x"), Cell.cstr ("y"), Cell.cstr ("TAX 4.50"), Cell.cnone, Cell.cnone,
   Cell.cnone, Cell.cnone, Cell.cnone, Cell.cnone, Cell.cnone]

/-- A row whose printed form contains TOTAL (CAD) but neither SUB TOTAL nor
TAX. -/
def c3totrow : List Cell :=
  [Cell.cstr ("x"), Cell.cstr ("y"), Cell.cstr ("TOTAL (CAD) 8.00"), Cell.cnone,
   Cell.cnone, Cell.cnone, Cell.cnone, Cell.cnone, Cell.cnone, Cell.cnone]

/-- Witness for C3 (amended), exercising every conjunct at concrete rows:
subtotal routing and shipping skip on `c3wrow`, tax routing on `c3taxrow`,
total routing on `c3totrow`, and item acceptance on the labelled row `c3row`. -/
theorem c3_witness :
    (processRow initState c3wrow).subtotal = (lastDec (rowStr c3wrow)).getD initState.subtotal ∧
      (processRow initState c3wrow).items = initState.items ∧
      (processRow initState c3wrow).ship = (lastDec (rowStr c3wrow)).getD initState.ship ∧
      (processRow initState c3taxrow).tax = (lastDec (rowStr c3taxrow)).getD initState.tax ∧
      (processRow initState c3totrow).total = (lastDec (rowStr c3totrow)).getD initState.total ∧
      (processRow initState c3row).items = initState.items ++ [⟨"123456789", 5, 15/2⟩] := by
  have hw := c3_amended_routing initState c3wrow (by decide) (by decide)
  have ht := c3_amended_routing initState c3taxrow (by decide) (by decide)
  have htot := c3_amended_routing initState c3totrow (by decide) (by decide)
  have hi := c3_amended_routing initState c3row (by decide) (by decide)
  refine ⟨hw.1 (by decide), (hw.2.2.2.1 (by decide) (by decide) (by decide)).1,
    (hw.2.2.2.1 (by decide) (by decide) (by decide)).2,
    ht.2.1 (by decide) (by decide) (by decide),
    htot.2.2.1 (by decide) (by decide) (by decide), ?_⟩
  exact hi.2.2.2.2 ("123456789") 5 (15/2) (by decide) (by decide) (by decide)
    (by with_unfolding_all decide) (by with_unfolding_all decide)
    (by with_unfolding_all decide) (by with_unfolding_all decide)

/-! ## Claim C1 (corrected) -/

/-- A valid item row for a code that is NOT on the known-items list. -/
def c1row : List Cell :=
  [Cell.cstr ("x"), Cell.cstr ("999999999"), Cell.cnone, Cell.cnone, Cell.cnone,
   Cell.cnone, Cell.cnone, Cell.cstr ("5"), Cell.cnone, Cell.cstr ("7.50")]

/-- Raw text that contains the known-items code 011120225 as a substring. -/
def c1text : String := "STARBUCKS COFFEE CANADA 011120225"

/-- Counterexample to C1 as stated: the raw text contains the known-items
code 011120225, so per the claim the known-items pass should fire first and
be authoritative — yet the pipeline output is exactly the table-pass item
999999999, because the source runs the table pass first and consults the
known-items list only when the table pass yields nothing. -/
theorem c1_counterexample :
    strContains c1text ("011120225") = true ∧
      samplePass c1text = [⟨"011120225", 16, 6256/100⟩] ∧
      (process_starbucks_invoice c1text [[c1row]] []).items =
        [⟨"999999999", 5, 15/2, askBossCode, askBossDesc⟩] := by
  with_unfolding_all decide

/-- C1 amended: the known-items lookup is consulted only when the table pass
yields no items; in that case every known entry whose code appears as a
substring of the raw text is emitted directly, and when at least one matches,
the text-pattern pass contributes nothing — the pipeline output is exactly
the reconciled known-items matches. -/
theorem c1_amended_bootstrap (text : String) (tables : List (List (List Cell)))
    (db : List RefEntry)
    (hempty : (tablePass tables).items = [])
    (hsample : samplePass text ≠ []) :
    extract_items_from_starbucks_invoice text = samplePass text ∧
      (process_starbucks_invoice text tables db).items =
        (samplePass text).map (reconcile db) := by
  have hext : extract_items_from_starbucks_invoice text = samplePass text := by
    unfold extract_items_from_starbucks_invoice
    rw [if_neg (by simpa using hsample)]
  refine ⟨hext, ?_⟩
  unfold process_starbucks_invoice
  simp only [hempty, List.isEmpty_nil, Bool.or_true, if_true, hext]

/-- Witness for C1 (amended): raw text consisting of the code 011120225 with
no tables at all. -/
theorem c1_witness :
    extract_items_from_starbucks_invoice ("011120225") = samplePass ("011120225") ∧
      (process_starbucks_invoice ("011120225") [] []).items =
        (samplePass ("011120225")).map (reconcile []) := by
  exact c1_amended_bootstrap ("011120225") [] [] (by decide) (by decide)

/-! ## Claim C8 -/

/-- C8: when the table pass and the text extraction (known-items bootstrap
plus regex fallback) both yield zero items, the pipeline driver stops with no
report — `generate_summary` is never invoked. -/
theorem c8_no_items_stops (text : String) (tables : List (List (List Cell)))
    (db : List RefEntry)
    (htab : (tablePass tables).items = [])
    (htext : extract_items_from_starbucks_invoice text = []) :
    main_run text tables db = none := by
  have hitems : (process_starbucks_invoice text tables db).items = [] := by
    unfold process_starbucks_invoice
    simp only [htab, List.isEmpty_nil, Bool.or_true, if_true, htext, List.map_nil]
  unfold main_run
  simp only [hitems, List.isEmpty_nil, if_true]

/-- Witness for C8: text with no nine-digit code and no tables. -/
theorem c8_witness : main_run ("NOPE") [] [] = none := by
  exact c8_no_items_stops ("NOPE") [] [] (by decide) (by decide)

end AutoSbux
